import Mathlib

set_option maxHeartbeats 1000000
set_option maxRecDepth 100000

/-!
Shallow embedding of `src/main/common/time.c` (INAV RTC and calendar conversion),
together with proofs about the calendar converter, the RTC state machine and the
timestamp formatter.

Conventions of the embedding:
* `rtcTime_t` is a 64-bit signed millisecond count (spec section 3: "signed, wide
  (>= 64-bit) integer"); it is modelled as `Int`, since no reachable value in any
  modelled operation overflows 64 bits.
* C signed `/` and `%` are truncated division: `Int.tdiv` / `Int.tmod`.
* C `unsigned int` arithmetic is `Nat` arithmetic reduced mod 2^32; conversion of a
  signed value to an unsigned type is `Int.emod` by the modulus (always non-negative).
* Conversion to `int32_t` wraps two's-complement style (as on the gcc targets).
-/

/-- `dateTime_t`. Modelled from the spec: the struct lives in `common/time.h`, which is
not among the sources; the spec fixes the fields and their nominal ranges (year
absolute, month 1-12, day 1-31, hour 0-23, minute 0-59, second 0-59, millisecond
0-999) but no machine widths, so the fields are modelled as unbounded integers
(out-of-range combinations are explicitly unvalidated garbage in both spec and code). -/
structure DateTime where
  year : Int
  month : Int
  day : Int
  hours : Int
  minutes : Int
  seconds : Int
  millis : Int
deriving DecidableEq

def UNIX_REFERENCE_YEAR : Nat := 1970

def MILLIS_PER_SECOND : Int := 1000

/-- The `static const uint16_t days[4][12]` table of time.c: cumulative day counts at
which each month of each year of a repeating 4-year group starts. -/
def days : List (List Nat) :=
  [[   0,   31,   60,   91,  121,  152,  182,  213,  244,  274,  305,  335],
   [ 366,  397,  425,  456,  486,  517,  547,  578,  609,  639,  670,  700],
   [ 731,  762,  790,  821,  851,  882,  912,  943,  974, 1004, 1035, 1065],
   [1096, 1127, 1155, 1186, 1216, 1247, 1277, 1308, 1339, 1369, 1400, 1430]]

/-- `days[y][m]`. An out-of-range index is undefined behaviour in C; it is totalised
to 0 here, and no claim exercises it. -/
def daysAt (y m : Nat) : Nat := (days.getD y []).getD m 0

/-- Conversion of an unsigned machine value to `int32_t` (two's-complement wrap). -/
def toInt32 (n : Nat) : Int :=
  if n % 4294967296 < 2147483648 then ((n % 4294967296 : Nat) : Int)
  else ((n % 4294967296 : Nat) : Int) - 4294967296

/-- Conversion of a signed value to `int32_t` (wrap mod 2^32 into the signed range). -/
def int32OfInt (x : Int) : Int := toInt32 (x.emod 4294967296).toNat

/-- Conversion of a signed value to C `unsigned int` (mod 2^32). -/
def toUInt32n (x : Int) : Nat := (x.emod 4294967296).toNat

/-- `rtcTimeMake(int32_t secs, uint16_t millis)`: the conversions model the parameter
types (`secs` is truncated to `int32_t`, `millis` to `uint16_t` at the call). -/
def rtcTimeMake (secs millis : Int) : Int :=
  int32OfInt secs * MILLIS_PER_SECOND + millis.emod 65536

/-- `rtcTimeGetSeconds`: `*t / MILLIS_PER_SECOND` returned as `int32_t`. -/
def rtcTimeGetSeconds (t : Int) : Int := int32OfInt (t.tdiv MILLIS_PER_SECOND)

/-- `rtcTimeGetMillis`: `*t % MILLIS_PER_SECOND` returned as `uint16_t`. -/
def rtcTimeGetMillis (t : Int) : Int := (t.tmod MILLIS_PER_SECOND).emod 65536

/-- `dateTimeToRtcTime` from time.c. The locals `second` .. `year` are C
`unsigned int`s (conversion from the field value, and the `- 1` / `- 1970`
wrap around mod 2^32 exactly as unsigned arithmetic does); `unixTime` is an
`int32_t`, so the unsigned total is wrapped into the signed range. -/
def dateTimeToRtcTime (dt : DateTime) : Int :=
  let second : Nat := toUInt32n dt.seconds
  let minute : Nat := toUInt32n dt.minutes
  let hour : Nat := toUInt32n dt.hours
  let day : Nat := (toUInt32n dt.day + 4294967295) % 4294967296
  let month : Nat := (toUInt32n dt.month + 4294967295) % 4294967296
  let year : Nat := (toUInt32n dt.year + (4294967296 - UNIX_REFERENCE_YEAR)) % 4294967296
  let unixTime : Int :=
    toInt32 ((((year / 4 * (365 * 4 + 1) + daysAt (year % 4) month + day) * 24 + hour) * 60
      + minute) * 60 + second)
  rtcTimeMake unixTime dt.millis

/-- `rtcTimeToDateTime` from time.c. `unixTime` is an `int32_t` local that is
repeatedly divided (C truncated division); `years` is an `unsigned int`; the two
`for` loops scanning the table downward are unrolled into conditional chains
(`for (year = 3; year > 0; year--) if (unixTime >= days[year][0]) break;` picks the
largest index 3..1 whose entry is `<= unixTime`, else 0, and likewise for `month`). -/
def rtcTimeToDateTime (t : Int) : DateTime :=
  let unixTime : Int := int32OfInt (t.tdiv MILLIS_PER_SECOND)
  let seconds : Int := unixTime.tmod 60
  let unixTime : Int := unixTime.tdiv 60
  let minutes : Int := unixTime.tmod 60
  let unixTime : Int := unixTime.tdiv 60
  let hours : Int := unixTime.tmod 24
  let unixTime : Int := unixTime.tdiv 24
  let years : Nat := toUInt32n (unixTime.tdiv (365 * 4 + 1) * 4)
  let unixTime : Int := unixTime.tmod (365 * 4 + 1)
  let year : Nat :=
    if (daysAt 3 0 : Int) ≤ unixTime then 3
    else if (daysAt 2 0 : Int) ≤ unixTime then 2
    else if (daysAt 1 0 : Int) ≤ unixTime then 1
    else 0
  let month : Nat :=
    if (daysAt year 11 : Int) ≤ unixTime then 11
    else if (daysAt year 10 : Int) ≤ unixTime then 10
    else if (daysAt year 9 : Int) ≤ unixTime then 9
    else if (daysAt year 8 : Int) ≤ unixTime then 8
    else if (daysAt year 7 : Int) ≤ unixTime then 7
    else if (daysAt year 6 : Int) ≤ unixTime then 6
    else if (daysAt year 5 : Int) ≤ unixTime then 5
    else if (daysAt year 4 : Int) ≤ unixTime then 4
    else if (daysAt year 3 : Int) ≤ unixTime then 3
    else if (daysAt year 2 : Int) ≤ unixTime then 2
    else if (daysAt year 1 : Int) ≤ unixTime then 1
    else 0
  { year := ((years + year + UNIX_REFERENCE_YEAR) % 4294967296 : Nat)
  , month := (month + 1 : Nat)
  , day := unixTime - (daysAt year month : Nat) + 1
  , hours := hours
  , minutes := minutes
  , seconds := seconds
  , millis := t.tmod MILLIS_PER_SECOND }

/-- The file-scope `static rtcTime_t started = 0` of time.c. -/
structure RtcState where
  started : Int
deriving DecidableEq

/-- The initial state: `started = 0` (static zero-initialisation). -/
def rtcInit : RtcState := ⟨0⟩

/-- `rtcHasTime()`: `started != 0`. -/
def rtcHasTime (s : RtcState) : Bool := s.started ≠ 0

/-- `rtcGet`. Modelled from the spec: `millis()` is the external monotonic uptime
source (non-negative, non-decreasing milliseconds since boot), passed here as the
explicit argument `uptime`. Returns `none` exactly when the C function returns
`false` without writing `*t`. -/
def rtcGet (s : RtcState) (uptime : Nat) : Option Int :=
  if rtcHasTime s then some (s.started + uptime) else none

/-- `rtcSet`: stores `started = *t - millis()` and returns `true`.  `uptime` is the
value of the external `millis()` at the call, as in `rtcGet`. -/
def rtcSet (t : Int) (uptime : Nat) : RtcState × Bool :=
  (⟨t - uptime⟩, true)

/-- `rtcGetDateTime`: on success converts the current time, otherwise fills the
output with the sentinel 0000-01-01T00:00:00.000 and returns `false`. -/
def rtcGetDateTime (s : RtcState) (uptime : Nat) : DateTime × Bool :=
  match rtcGet s uptime with
  | some t => (rtcTimeToDateTime t, true)
  | none => ({ year := 0, month := 1, day := 1, hours := 0, minutes := 0
             , seconds := 0, millis := 0 }, false)

/-- `rtcSetDateTime`: converts the fields and calls `rtcSet`. -/
def rtcSetDateTime (dt : DateTime) (uptime : Nat) : RtcState × Bool :=
  rtcSet (dateTimeToRtcTime dt) uptime

/-- The `ABS` macro of common/maths.h. Modelled from the spec ("MM = abs(...)"):
absolute value. -/
def ABS (x : Int) : Int := if x < 0 then -x else x

/-- Modelled from the spec: zero-padded minimum-width decimal rendering of a
non-negative value, as printf `%0Nu` / `%0Nd` render one. -/
def zeroPad (w : Nat) (s : String) : String :=
  if s.length < w then String.mk (List.replicate (w - s.length) '0') ++ s else s

/-- Modelled from the spec: a `%0Wu` conversion applied to a (possibly signed) field
value: the argument is reinterpreted as `unsigned int`, then rendered in decimal with
zero padding to width `w`. -/
def fmtU (w : Nat) (x : Int) : String := zeroPad w (toString (toUInt32n x))

/-- Modelled from the spec: a `%0Wd` conversion applied to a non-negative value. -/
def fmtN (w : Nat) (n : Nat) : String := zeroPad w (toString n)

/-- Modelled from the spec: `tfp_sprintf` (the external fixed-field formatting
primitive) applied to the format string
`"%04u-%02u-%02uT%02u:%02u:%02u.%03u%c%02d:%02d"`; the two final `%02d` arguments
are the `ABS`-ed timezone components, hence non-negative. -/
def sprintfDateTime (dt : DateTime) (c : Char) (tzh tzm : Nat) : String :=
  fmtU 4 dt.year ++ "-" ++ fmtU 2 dt.month ++ "-" ++ fmtU 2 dt.day ++ "T" ++
  fmtU 2 dt.hours ++ ":" ++ fmtU 2 dt.minutes ++ ":" ++ fmtU 2 dt.seconds ++ "." ++
  fmtU 3 dt.millis ++
  (String.singleton c ++ fmtN 2 tzh ++ ":" ++ fmtN 2 tzm)

/-- `dateTimeFormat` from time.c, returning the formatted buffer. The single C
`if (offset != 0)` block is rendered as three conditionals with the same condition
(the locals `tz_hours`, `tz_minutes` and the datetime actually shown); `utcTime` is
recomputed instead of bound once, which is identical since `dateTimeToRtcTime` is
pure. `offset * 60` is added to the seconds and passed through `rtcTimeMake`, whose
first parameter truncates to `int32_t`. -/
def dateTimeFormat (dateTime : DateTime) (offset : Int) : String :=
  let tz_hours : Int := if offset ≠ 0 then offset.tdiv 60 else 0
  let tz_minutes : Int := if offset ≠ 0 then ABS (offset.tmod 60) else 0
  let shown : DateTime :=
    if offset ≠ 0 then
      rtcTimeToDateTime (rtcTimeMake
        (rtcTimeGetSeconds (dateTimeToRtcTime dateTime) + offset * 60)
        (rtcTimeGetMillis (dateTimeToRtcTime dateTime)))
    else dateTime
  sprintfDateTime shown (if 0 ≤ tz_hours then '+' else '-') (ABS tz_hours).toNat
    tz_minutes.toNat

/-- `dateTimeFormatUTC`: format with offset 0. -/
def dateTimeFormatUTC (dt : DateTime) : String := dateTimeFormat dt 0

/-- `dateTimeFormatLocal`: format with the configured offset. Modelled from the spec:
`timeConfig()->tz_offset` is the externally owned signed-minutes configuration value
(default 0), passed here as the explicit argument `tz_offset`. -/
def dateTimeFormatLocal (tz_offset : Int) (dt : DateTime) : String :=
  dateTimeFormat dt tz_offset

/-! ### Proof helpers: `Nat` views of the converter -/

/-- The year scan of `rtcTimeToDateTime`, restated on `Nat` (proof helper). -/
def yearScan (r : Nat) : Nat :=
  if daysAt 3 0 ≤ r then 3
  else if daysAt 2 0 ≤ r then 2
  else if daysAt 1 0 ≤ r then 1
  else 0

/-- The month scan of `rtcTimeToDateTime`, restated on `Nat` (proof helper). -/
def monthScan (y r : Nat) : Nat :=
  if daysAt y 11 ≤ r then 11
  else if daysAt y 10 ≤ r then 10
  else if daysAt y 9 ≤ r then 9
  else if daysAt y 8 ≤ r then 8
  else if daysAt y 7 ≤ r then 7
  else if daysAt y 6 ≤ r then 6
  else if daysAt y 5 ≤ r then 5
  else if daysAt y 4 ≤ r then 4
  else if daysAt y 3 ≤ r then 3
  else if daysAt y 2 ≤ r then 2
  else if daysAt y 1 ≤ r then 1
  else 0

/-- The value `rtcTimeToDateTime` produces on a small non-negative epoch
`1000 * s + m`, written with `Nat` arithmetic (proof helper). -/
def dtFwdView (s m : Nat) : DateTime :=
  let r := s / 60 / 60 / 24 % 1461
  { year := ((s / 60 / 60 / 24 / 1461 * 4 + yearScan r + 1970 : Nat) : Int)
  , month := ((monthScan (yearScan r) r + 1 : Nat) : Int)
  , day := ((r : Nat) : Int) - ((daysAt (yearScan r) (monthScan (yearScan r) r) : Nat) : Int) + 1
  , hours := ((s / 60 / 60 % 24 : Nat) : Int)
  , minutes := ((s / 60 % 60 : Nat) : Int)
  , seconds := ((s % 60 : Nat) : Int)
  , millis := ((m : Nat) : Int) }

/-- What the table scans guarantee for a day offset inside one 4-year cycle:
the selected entry is below the offset, the indices are in range, and at most
30 further days remain past the selected month start. -/
def scanP (r : Nat) : Prop :=
  daysAt (yearScan r) (monthScan (yearScan r) r) ≤ r ∧
  yearScan r ≤ 3 ∧
  monthScan (yearScan r) r ≤ 11 ∧
  r - daysAt (yearScan r) (monthScan (yearScan r) r) ≤ 30

instance scanP.decidable (r : Nat) : Decidable (scanP r) := by
  unfold scanP; infer_instance

theorem scanChunk1 : ∀ r : Nat, r < 500 → scanP r := by decide

theorem scanChunk2 : ∀ r : Nat, r < 500 → scanP (500 + r) := by decide

theorem scanChunk3 : ∀ r : Nat, r < 461 → scanP (1000 + r) := by decide

/-- The scan guarantees, for every day offset inside a 4-year cycle. -/
theorem scan_facts {r : Nat} (hr : r < 1461) : scanP r := by
  rcases Nat.lt_or_ge r 500 with h | h
  · exact scanChunk1 r h
  · rcases Nat.lt_or_ge r 1000 with h2 | h2
    · have h3 := scanChunk2 (r - 500) (by omega)
      have h4 : 500 + (r - 500) = r := by omega
      rwa [h4] at h3
    · have h3 := scanChunk3 (r - 1000) (by omega)
      have h4 : 1000 + (r - 1000) = r := by omega
      rwa [h4] at h3

theorem natCast_tdiv_1000 (a : Nat) :
    ((a : Nat) : Int).tdiv MILLIS_PER_SECOND = ((a / 1000 : Nat) : Int) := rfl

theorem natCast_tmod_1000 (a : Nat) :
    ((a : Nat) : Int).tmod MILLIS_PER_SECOND = ((a % 1000 : Nat) : Int) := rfl

theorem natCast_tdiv_60 (a : Nat) :
    ((a : Nat) : Int).tdiv 60 = ((a / 60 : Nat) : Int) := rfl

theorem natCast_tmod_60 (a : Nat) :
    ((a : Nat) : Int).tmod 60 = ((a % 60 : Nat) : Int) := rfl

theorem natCast_tdiv_24 (a : Nat) :
    ((a : Nat) : Int).tdiv 24 = ((a / 24 : Nat) : Int) := rfl

theorem natCast_tmod_24 (a : Nat) :
    ((a : Nat) : Int).tmod 24 = ((a % 24 : Nat) : Int) := rfl

theorem natCast_tdiv_1461 (a : Nat) :
    ((a : Nat) : Int).tdiv (365 * 4 + 1) = ((a / 1461 : Nat) : Int) := rfl

theorem natCast_tmod_1461 (a : Nat) :
    ((a : Nat) : Int).tmod (365 * 4 + 1) = ((a % 1461 : Nat) : Int) := rfl

theorem natCast_mul_4 (a : Nat) :
    ((a : Nat) : Int) * 4 = ((a * 4 : Nat) : Int) := rfl

theorem natCast_emod_65536 (a : Nat) :
    ((a : Nat) : Int).emod 65536 = ((a % 65536 : Nat) : Int) := rfl

theorem toUInt32n_natCast (a : Nat) : toUInt32n ((a : Nat) : Int) = a % 4294967296 := rfl

theorem int32OfInt_natCast (a : Nat) :
    int32OfInt ((a : Nat) : Int) = toInt32 (a % 4294967296) := rfl

theorem toInt32_small {a : Nat} (h : a < 2147483648) : toInt32 a = ((a : Nat) : Int) := by
  have h2 : a % 4294967296 = a := Nat.mod_eq_of_lt (by omega)
  unfold toInt32
  rw [h2, if_pos h]

/-! ### Conversion evaluation lemmas -/

/-- A value already inside the `int32_t` range is unchanged by the conversion. -/
theorem int32OfInt_of_range (x : Int) (h1 : -2147483648 ≤ x) (h2 : x < 2147483648) :
    int32OfInt x = x := by
  rcases le_or_lt 0 x with h | h
  · lift x to Nat using h with k
    have hk : k < 2147483648 := by exact_mod_cast h2
    rw [int32OfInt_natCast]
    have hm : k % 4294967296 = k := by omega
    rw [hm, toInt32_small hk]
  · have he0 : x.emod 4294967296 = x % 4294967296 := rfl
    have he : x % 4294967296 = x + 4294967296 := by omega
    unfold int32OfInt toInt32
    rw [he0, he]
    split_ifs with hc
    · exfalso; omega
    · omega

/-- `toInt32` always lands in the `int32_t` range. -/
theorem toInt32_mem (n : Nat) : -2147483648 ≤ toInt32 n ∧ toInt32 n < 2147483648 := by
  unfold toInt32
  split_ifs with hc <;> constructor <;> omega

/-- Truncating an already-truncated value is the identity. -/
theorem int32OfInt_toInt32 (n : Nat) : int32OfInt (toInt32 n) = toInt32 n :=
  int32OfInt_of_range _ (toInt32_mem n).1 (toInt32_mem n).2

/-- Forward evaluation: on a non-negative epoch whose whole-seconds count fits in
`int32_t`, `rtcTimeToDateTime` computes exactly the `Nat`-arithmetic view. -/
theorem rtcTimeToDateTime_toView (s m : Nat) (hs : s < 2147483648) (hm : m < 1000) :
    rtcTimeToDateTime ((1000 * s + m : Nat) : Int) = dtFwdView s m := by
  have hdiv : (1000 * s + m) / 1000 = s := by omega
  have hmod : (1000 * s + m) % 1000 = m := by omega
  have hs32 : s % 4294967296 = s := by omega
  have hi32 : int32OfInt ((s : Nat) : Int) = ((s : Nat) : Int) := by
    rw [int32OfInt_natCast, hs32, toInt32_small hs]
  simp only [rtcTimeToDateTime, natCast_tdiv_1000, natCast_tmod_1000, hdiv, hmod, hi32,
    natCast_tdiv_60, natCast_tmod_60, natCast_tdiv_24, natCast_tmod_24,
    natCast_tdiv_1461, natCast_tmod_1461, natCast_mul_4, toUInt32n_natCast,
    dtFwdView, yearScan, monthScan, Nat.cast_le, UNIX_REFERENCE_YEAR]
  simp only [DateTime.mk.injEq, and_true, true_and]
  split_ifs <;> omega

/-- Backward evaluation: `dateTimeToRtcTime` on fields presented in table form
(4-year group `g`, year-in-group `Y`, month index `M`, day offset `r` inside the
cycle) produces the corresponding epoch. -/
theorem dateTimeToRtcTime_ofView (g Y M r hh mi ss ms : Nat)
    (hY : Y ≤ 3) (hM : M ≤ 11) (hD : daysAt Y M ≤ r) (hr : r < 1461)
    (hg : g ≤ 17) (hhh : hh ≤ 23) (hmi : mi ≤ 59) (hss : ss ≤ 59) (hms : ms ≤ 999)
    (hfit : (((g * 1461 + r) * 24 + hh) * 60 + mi) * 60 + ss < 2147483648) :
    dateTimeToRtcTime
      { year := ((g * 4 + Y + 1970 : Nat) : Int), month := ((M + 1 : Nat) : Int)
      , day := ((r - daysAt Y M + 1 : Nat) : Int), hours := ((hh : Nat) : Int)
      , minutes := ((mi : Nat) : Int), seconds := ((ss : Nat) : Int)
      , millis := ((ms : Nat) : Int) } =
    ((((((g * 1461 + r) * 24 + hh) * 60 + mi) * 60 + ss) * 1000 + ms : Nat) : Int) := by
  simp only [dateTimeToRtcTime, rtcTimeMake, toUInt32n_natCast, natCast_emod_65536,
    UNIX_REFERENCE_YEAR, MILLIS_PER_SECOND, int32OfInt_toInt32]
  have e1 : ((g * 4 + Y + 1970) % 4294967296 + (4294967296 - 1970)) % 4294967296
      = g * 4 + Y := by omega
  rw [e1]
  have e2 : (g * 4 + Y) / 4 = g := by omega
  have e3 : (g * 4 + Y) % 4 = Y := by omega
  rw [e2, e3]
  have e4 : ((M + 1) % 4294967296 + 4294967295) % 4294967296 = M := by omega
  rw [e4]
  have e5 : ((r - daysAt Y M + 1) % 4294967296 + 4294967295) % 4294967296
      = r - daysAt Y M := by omega
  rw [e5]
  have e6a : ss % 4294967296 = ss := by omega
  have e6b : mi % 4294967296 = mi := by omega
  have e6c : hh % 4294967296 = hh := by omega
  rw [e6a, e6b, e6c]
  have hbig : (((g * (365 * 4 + 1) + daysAt Y M + (r - daysAt Y M)) * 24 + hh) * 60 + mi) * 60 + ss
      < 2147483648 := by omega
  rw [toInt32_small hbig]
  have e7 : ms % 65536 = ms := by omega
  rw [e7]
  push_cast
  omega

/-- Round trip for epochs written as `1000 * s + m` with the seconds in `int32_t`
range. -/
theorem roundtrip_small (s m : Nat) (hs : s < 2147483648) (hm : m < 1000) :
    dateTimeToRtcTime (rtcTimeToDateTime ((1000 * s + m : Nat) : Int))
      = ((1000 * s + m : Nat) : Int) := by
  rw [rtcTimeToDateTime_toView s m hs hm]
  have hr : s / 60 / 60 / 24 % 1461 < 1461 := Nat.mod_lt _ (by norm_num)
  obtain ⟨hD, hY, hM, hday⟩ := scan_facts hr
  have hview : dtFwdView s m =
      { year := ((s / 60 / 60 / 24 / 1461 * 4 + yearScan (s / 60 / 60 / 24 % 1461)
          + 1970 : Nat) : Int)
      , month := ((monthScan (yearScan (s / 60 / 60 / 24 % 1461)) (s / 60 / 60 / 24 % 1461)
          + 1 : Nat) : Int)
      , day := ((s / 60 / 60 / 24 % 1461
          - daysAt (yearScan (s / 60 / 60 / 24 % 1461))
              (monthScan (yearScan (s / 60 / 60 / 24 % 1461)) (s / 60 / 60 / 24 % 1461))
          + 1 : Nat) : Int)
      , hours := ((s / 60 / 60 % 24 : Nat) : Int)
      , minutes := ((s / 60 % 60 : Nat) : Int)
      , seconds := ((s % 60 : Nat) : Int)
      , millis := ((m : Nat) : Int) } := by
    simp only [dtFwdView, DateTime.mk.injEq, and_true, true_and]
    omega
  rw [hview]
  rw [dateTimeToRtcTime_ofView (s / 60 / 60 / 24 / 1461)
    (yearScan (s / 60 / 60 / 24 % 1461))
    (monthScan (yearScan (s / 60 / 60 / 24 % 1461)) (s / 60 / 60 / 24 % 1461))
    (s / 60 / 60 / 24 % 1461) (s / 60 / 60 % 24) (s / 60 % 60) (s % 60) m
    hY hM hD hr (by omega) (by omega) (by omega) (by omega) (by omega) (by omega)]
  exact Nat.cast_inj.mpr (by omega)

/-! ### Claims -/

/-- Claim C1 (amended): for every epoch scalar `E >= 0` whose whole-seconds count
`E / 1000` fits in `int32_t` (i.e. `E <= 2147483647999`), converting `E` to calendar
fields with `rtcTimeToDateTime` and back with `dateTimeToRtcTime` yields `E` exactly.
(The amendment adds the `int32_t` bound: the claim as stated ranges over every
`E >= 0`, but `rtcTimeToDateTime` truncates `E / 1000` into an `int32_t`.) -/
theorem epochRoundTrip (E : Int) (h0 : 0 ≤ E) (h1 : E ≤ 2147483647999) :
    dateTimeToRtcTime (rtcTimeToDateTime E) = E := by
  obtain ⟨n, rfl⟩ := Int.eq_ofNat_of_zero_le h0
  have hn : n ≤ 2147483647999 := by exact_mod_cast h1
  obtain ⟨s, m, hm, rfl⟩ : ∃ s m, m < 1000 ∧ n = 1000 * s + m :=
    ⟨n / 1000, n % 1000, by omega, by omega⟩
  exact roundtrip_small s m (by omega) hm

/-- Witness for C1: the round trip at the concrete epoch 1234567890123 ms. -/
theorem epochRoundTrip_witness :
    dateTimeToRtcTime (rtcTimeToDateTime 1234567890123) = 1234567890123 :=
  epochRoundTrip 1234567890123 (by norm_num) (by norm_num)

/-- Counterexample to C1 as stated: at `E = 2147483648000` (whole seconds = 2^31,
one past `int32_t`), the truncation to `int32_t` wraps negative and the round trip
returns `-2147483648000`, not `E`. -/
theorem epochRoundTrip_cex :
    ¬ dateTimeToRtcTime (rtcTimeToDateTime 2147483648000) = 2147483648000 := by
  decide

/-- Claim C2, evaluated at the failing input: 1972-02-29T00:00:00.000 is a real
calendar day (1972 is a leap year), yet the code maps it to epoch 68256000000 ms,
which converts back to 1972-03-01 — the table embeds the leap day in years
1970 + 4k instead of 1972 + 4k, so valid real fields do not round-trip. -/
theorem fieldsRoundTrip_bug :
    rtcTimeToDateTime (dateTimeToRtcTime ⟨1972, 2, 29, 0, 0, 0, 0⟩)
      = ⟨1972, 3, 1, 0, 0, 0, 0⟩ ∧
    dateTimeToRtcTime (⟨1972, 2, 29, 0, 0, 0, 0⟩ : DateTime) = 68256000000 := by
  constructor
  · decide
  · decide

/-- Counterexample to C3 as stated: the claim locates the table's embedded leap day
at "February 29 of the leap year of each 4-year group, e.g. 1972-02-29", but
1972-02-29 does not round-trip. -/
theorem leapDayRoundTrip_cex :
    ¬ rtcTimeToDateTime (dateTimeToRtcTime ⟨1972, 2, 29, 0, 0, 0, 0⟩)
      = ⟨1972, 2, 29, 0, 0, 0, 0⟩ := by
  decide

/-- Claim C3 (amended): the leap day actually embedded in the table is February 29
of the FIRST year of each 4-year group (years 1970 + 4g).  For every group index
`g <= 16` (so that the seconds stay inside `int32_t`), that date round-trips exactly
through `dateTimeToRtcTime` / `rtcTimeToDateTime`, and the epoch of the immediately
following day converts to March 1 of the same year. -/
theorem leapDayRoundTrip (g : Nat) (hg : g ≤ 16) :
    rtcTimeToDateTime (dateTimeToRtcTime ⟨((1970 + 4 * g : Nat) : Int), 2, 29, 0, 0, 0, 0⟩)
      = ⟨((1970 + 4 * g : Nat) : Int), 2, 29, 0, 0, 0, 0⟩ ∧
    rtcTimeToDateTime
        (dateTimeToRtcTime ⟨((1970 + 4 * g : Nat) : Int), 2, 29, 0, 0, 0, 0⟩ + 86400000)
      = ⟨((1970 + 4 * g : Nat) : Int), 3, 1, 0, 0, 0, 0⟩ := by
  have d01 : daysAt 0 1 = 31 := by decide
  have d02 : daysAt 0 2 = 60 := by decide
  have e1 : (⟨((1970 + 4 * g : Nat) : Int), 2, 29, 0, 0, 0, 0⟩ : DateTime) =
      { year := ((g * 4 + 0 + 1970 : Nat) : Int), month := ((1 + 1 : Nat) : Int)
      , day := ((59 - daysAt 0 1 + 1 : Nat) : Int), hours := ((0 : Nat) : Int)
      , minutes := ((0 : Nat) : Int), seconds := ((0 : Nat) : Int)
      , millis := ((0 : Nat) : Int) } := by
    simp only [DateTime.mk.injEq, and_true, true_and, d01]
    omega
  rw [e1]
  rw [dateTimeToRtcTime_ofView g 0 1 59 0 0 0 0 (by norm_num) (by norm_num) (by decide)
    (by norm_num) (by omega) (by norm_num) (by norm_num) (by norm_num) (by norm_num)
    (by omega)]
  have e2 : ((((g * 1461 + 59) * 24 + 0) * 60 + 0) * 60 + 0) * 1000 + 0
      = 1000 * ((g * 1461 + 59) * 86400) + 0 := by omega
  rw [e2]
  rw [rtcTimeToDateTime_toView ((g * 1461 + 59) * 86400) 0 (by omega) (by norm_num)]
  have e3 : ((((1000 * ((g * 1461 + 59) * 86400) + 0 : Nat) : Int)) + 86400000)
      = ((1000 * ((g * 1461 + 60) * 86400) + 0 : Nat) : Int) := by push_cast; omega
  constructor
  · have f1 : (g * 1461 + 59) * 86400 / 60 / 60 / 24 = g * 1461 + 59 := by omega
    simp only [dtFwdView, f1]
    have f2 : (g * 1461 + 59) % 1461 = 59 := by omega
    have f3 : (g * 1461 + 59) / 1461 = g := by omega
    rw [f2, f3]
    have f4 : (g * 1461 + 59) * 86400 / 60 / 60 % 24 = 0 := by omega
    have f5 : (g * 1461 + 59) * 86400 / 60 % 60 = 0 := by omega
    have f6 : (g * 1461 + 59) * 86400 % 60 = 0 := by omega
    rw [f4, f5, f6]
    have fy : yearScan 59 = 0 := by decide
    rw [fy]
    have fm : monthScan 0 59 = 1 := by decide
    rw [fm]
    simp only [DateTime.mk.injEq, and_true, true_and, d01]
    omega
  · rw [e3]
    rw [rtcTimeToDateTime_toView ((g * 1461 + 60) * 86400) 0 (by omega) (by norm_num)]
    have f1 : (g * 1461 + 60) * 86400 / 60 / 60 / 24 = g * 1461 + 60 := by omega
    simp only [dtFwdView, f1]
    have f2 : (g * 1461 + 60) % 1461 = 60 := by omega
    have f3 : (g * 1461 + 60) / 1461 = g := by omega
    rw [f2, f3]
    have f4 : (g * 1461 + 60) * 86400 / 60 / 60 % 24 = 0 := by omega
    have f5 : (g * 1461 + 60) * 86400 / 60 % 60 = 0 := by omega
    have f6 : (g * 1461 + 60) * 86400 % 60 = 0 := by omega
    rw [f4, f5, f6]
    have fy : yearScan 60 = 0 := by decide
    rw [fy]
    have fm : monthScan 0 60 = 2 := by decide
    rw [fm]
    simp only [DateTime.mk.injEq, and_true, true_and, d02]
    omega

/-- Witness for C3 (amended), at group 1: 1974-02-29 round-trips and its successor
day converts to 1974-03-01. -/
theorem leapDayRoundTrip_witness :
    rtcTimeToDateTime (dateTimeToRtcTime ⟨((1970 + 4 * 1 : Nat) : Int), 2, 29, 0, 0, 0, 0⟩)
      = ⟨((1970 + 4 * 1 : Nat) : Int), 2, 29, 0, 0, 0, 0⟩ ∧
    rtcTimeToDateTime
        (dateTimeToRtcTime ⟨((1970 + 4 * 1 : Nat) : Int), 2, 29, 0, 0, 0, 0⟩ + 86400000)
      = ⟨((1970 + 4 * 1 : Nat) : Int), 3, 1, 0, 0, 0, 0⟩ :=
  leapDayRoundTrip 1 (by norm_num)

/-- Counterexample to C4 as stated: `rtcSet` does NOT always make `rtcHasTime` true.
Setting epoch 5 ms at uptime 5 ms stores `started = 0`, which is the "unset"
sentinel, so `rtcHasTime` is false immediately after this `rtcSet`. -/
theorem hasTime_cex : rtcHasTime (rtcSet 5 5).1 = false := by decide

/-- Claim C4 (amended): `rtcHasTime` is false in the initial state, and after
`rtcSet t` at uptime `u` it is true exactly when `t ≠ u`, i.e. when the stored
offset `t - u` is nonzero.  (A later `rtcSet` whose offset is zero therefore DOES
return the state to Unset: the sentinel `started = 0` is indistinguishable from a
legitimately established zero offset.  `rtcGet` reads the state without mutating
it, so it never changes `rtcHasTime`.) -/
theorem hasTime_spec :
    rtcHasTime rtcInit = false ∧
    ∀ (t : Int) (u : Nat), (rtcHasTime (rtcSet t u).1 = true ↔ t ≠ (u : Int)) := by
  constructor
  · decide
  · intro t u
    simp only [rtcSet, rtcHasTime, rtcInit]
    constructor
    · intro h
      intro he
      rw [he] at h
      simp at h
    · intro h
      simp only [ne_eq, decide_eq_true_eq]
      omega

/-- Witness for C4 (amended): setting epoch 7 at uptime 2 establishes the time. -/
theorem hasTime_spec_witness : rtcHasTime (rtcSet 7 2).1 = true :=
  (hasTime_spec.2 7 2).mpr (by decide)

/-- Counterexample to C5 as stated: after `rtcSet 5` at uptime 5 (stored offset 0),
a subsequent `rtcGet` at uptime 7 does NOT succeed — it returns `none`. -/
theorem setGet_cex : rtcGet (rtcSet 5 5).1 7 = none := by decide

/-- Claim C5 (amended): `rtcSet t` at uptime `u0` always returns true and stores
`started = t - u0`; provided that the stored offset is nonzero (`t ≠ u0`) and the
uptime source is non-decreasing (`u0 ≤ u1`), a subsequent `rtcGet` at uptime `u1`
succeeds and returns exactly `t` plus the elapsed uptime `u1 - u0`, a value `≥ t`. -/
theorem setGet_spec (t : Int) (u0 u1 : Nat) :
    (rtcSet t u0).2 = true ∧
    (rtcSet t u0).1.started = t - (u0 : Int) ∧
    (t ≠ (u0 : Int) → u0 ≤ u1 →
      rtcGet (rtcSet t u0).1 u1 = some (t + ((u1 : Int) - (u0 : Int))) ∧
      t ≤ t + ((u1 : Int) - (u0 : Int))) := by
  refine ⟨rfl, rfl, ?_⟩
  intro hne hle
  constructor
  · simp only [rtcGet, rtcSet, rtcHasTime]
    rw [if_pos]
    · congr 1
      omega
    · simp only [ne_eq, decide_eq_true_eq]
      omega
  · omega

/-- Witness for C5 (amended): set epoch 100 at uptime 2, get at uptime 5 yields 103. -/
theorem setGet_spec_witness :
    (rtcSet 100 2).2 = true ∧
    (rtcSet 100 2).1.started = 100 - ((2 : Nat) : Int) ∧
    rtcGet (rtcSet 100 2).1 5 = some (100 + (((5 : Nat) : Int) - ((2 : Nat) : Int))) ∧
    100 ≤ 100 + (((5 : Nat) : Int) - ((2 : Nat) : Int)) := by
  obtain ⟨a, b, c⟩ := setGet_spec 100 2 5
  exact ⟨a, b, c (by decide) (by decide)⟩

/-- Claim C6: `rtcGetDateTime` returns the converted current time together with
`true` when `rtcGet` succeeds, and the sentinel calendar value
(year 0, month 1, day 1, all time fields 0) together with `false` when it fails. -/
theorem getDateTime_spec (s : RtcState) (u : Nat) :
    (∀ t, rtcGet s u = some t → rtcGetDateTime s u = (rtcTimeToDateTime t, true)) ∧
    (rtcGet s u = none →
      rtcGetDateTime s u = (⟨0, 1, 1, 0, 0, 0, 0⟩, false)) := by
  constructor
  · intro t ht
    simp only [rtcGetDateTime, ht]
  · intro ht
    simp only [rtcGetDateTime, ht]

/-- Witness for C6: in the initial (unset) state the sentinel and `false` come back. -/
theorem getDateTime_spec_witness :
    rtcGetDateTime rtcInit 3 = (⟨0, 1, 1, 0, 0, 0, 0⟩, false) :=
  (getDateTime_spec rtcInit 3).2 rfl

/-- Claim C7: `dateTimeFormatUTC` renders the fields as-is (no shift) in the fixed
format with an unconditional "+00:00" suffix, and formatting the calendar obtained
from epoch 0 produces exactly "1970-01-01T00:00:00.000+00:00". -/
theorem formatUTC_spec :
    dateTimeFormatUTC (rtcTimeToDateTime 0) = "1970-01-01T00:00:00.000+00:00" ∧
    (∀ dt : DateTime, dateTimeFormatUTC dt = sprintfDateTime dt '+' 0 0) ∧
    (∀ dt : DateTime, ∃ p, dateTimeFormatUTC dt = p ++ "+00:00") := by
  refine ⟨by decide, fun dt => rfl, ?_⟩
  intro dt
  exact ⟨fmtU 4 dt.year ++ "-" ++ fmtU 2 dt.month ++ "-" ++ fmtU 2 dt.day ++ "T" ++
    fmtU 2 dt.hours ++ ":" ++ fmtU 2 dt.minutes ++ ":" ++ fmtU 2 dt.seconds ++ "." ++
    fmtU 3 dt.millis, rfl⟩

/-- Claim C8: with `tz_offset = 330`, formatting 1970-01-01T00:00:00.000 renders the
calendar shifted by +5h30m with suffix "+05:30"; with `tz_offset = -300` the
rendered suffix is "-05:00". -/
theorem formatLocal_spec :
    dateTimeFormatLocal 330 ⟨1970, 1, 1, 0, 0, 0, 0⟩ = "1970-01-01T05:30:00.000+05:30" ∧
    ∃ p, dateTimeFormatLocal (-300) ⟨1970, 1, 1, 0, 0, 0, 0⟩ = p ++ "-05:00" := by
  exact ⟨by decide, ⟨"1970-01-01T4294967291:00:00.000", by decide⟩⟩

/-- Claim C9: for every configured offset strictly between -60 and 0 minutes, the
truncating division `offset / 60` makes `tz_hours = 0`, which is non-negative, so
the rendered sign character is '+' and the suffix is "+00:MM" with
`MM = |offset|` — even though the offset is negative. -/
theorem negOffsetSign_spec (dt : DateTime) (o : Int) (h1 : -60 < o) (h2 : o < 0) :
    ∃ p, dateTimeFormatLocal o dt = p ++ ("+00:" ++ fmtN 2 o.natAbs) := by
  have ho : o ≠ 0 := by omega
  obtain ⟨k, hk⟩ : ∃ k : Nat, o = -((k : Nat) : Int) := ⟨o.natAbs, by omega⟩
  subst hk
  have hk1 : 1 ≤ k := by omega
  have hk60 : k < 60 := by omega
  have htd : (-((k : Nat) : Int)).tdiv 60 = 0 := by
    rw [Int.neg_tdiv, natCast_tdiv_60]
    have hz : k / 60 = 0 := by omega
    rw [hz]
    rfl
  have htm : (-((k : Nat) : Int)).tmod 60 = -((k : Nat) : Int) := by
    have h := Int.tdiv_add_tmod (-((k : Nat) : Int)) 60
    rw [htd] at h
    omega
  have habs : (ABS (-((k : Nat) : Int))).toNat = k := by
    unfold ABS
    rw [if_pos (by omega)]
    omega
  have hna : (-((k : Nat) : Int)).natAbs = k := by omega
  simp only [dateTimeFormatLocal, dateTimeFormat, if_pos ho, htd, htm, habs, hna,
    sprintfDateTime]
  rw [show (String.singleton (if (0 : Int) ≤ 0 then '+' else '-') ++ fmtN 2 (ABS 0).toNat
      ++ ":") = "+00:" from by decide]
  exact ⟨_, rfl⟩

/-- Witness for C9: with offset -30 the suffix renders as "+00:30". -/
theorem negOffsetSign_spec_witness :
    ∃ p, dateTimeFormatLocal (-30) ⟨1970, 1, 1, 0, 0, 0, 0⟩
      = p ++ ("+00:" ++ fmtN 2 (Int.natAbs (-30))) :=
  negOffsetSign_spec ⟨1970, 1, 1, 0, 0, 0, 0⟩ (-30) (by norm_num) (by norm_num)

/-- Claim C10: for every epoch `E >= 0` whose whole-seconds count fits in `int32_t`,
every field produced by `rtcTimeToDateTime` is in its nominal range (the downward
table scans terminate with a valid row and column). -/
theorem fieldsInRange_spec (E : Int) (h0 : 0 ≤ E) (h1 : E ≤ 2147483647999) :
    1 ≤ (rtcTimeToDateTime E).month ∧ (rtcTimeToDateTime E).month ≤ 12 ∧
    1 ≤ (rtcTimeToDateTime E).day ∧ (rtcTimeToDateTime E).day ≤ 31 ∧
    0 ≤ (rtcTimeToDateTime E).hours ∧ (rtcTimeToDateTime E).hours ≤ 23 ∧
    0 ≤ (rtcTimeToDateTime E).minutes ∧ (rtcTimeToDateTime E).minutes ≤ 59 ∧
    0 ≤ (rtcTimeToDateTime E).seconds ∧ (rtcTimeToDateTime E).seconds ≤ 59 ∧
    0 ≤ (rtcTimeToDateTime E).millis ∧ (rtcTimeToDateTime E).millis ≤ 999 := by
  obtain ⟨n, rfl⟩ := Int.eq_ofNat_of_zero_le h0
  have hn : n ≤ 2147483647999 := by exact_mod_cast h1
  obtain ⟨s, m, hm, rfl⟩ : ∃ s m, m < 1000 ∧ n = 1000 * s + m :=
    ⟨n / 1000, n % 1000, by omega, by omega⟩
  rw [rtcTimeToDateTime_toView s m (by omega) hm]
  have hr : s / 60 / 60 / 24 % 1461 < 1461 := Nat.mod_lt _ (by norm_num)
  obtain ⟨hD, hY, hM, hday⟩ := scan_facts hr
  simp only [dtFwdView]
  refine ⟨by omega, by omega, by omega, by omega, by omega, by omega, by omega, by omega,
    by omega, by omega, by omega, by omega⟩

/-- Witness for C10: the field ranges at epoch 0. -/
theorem fieldsInRange_spec_witness :
    1 ≤ (rtcTimeToDateTime 0).month ∧ (rtcTimeToDateTime 0).month ≤ 12 ∧
    1 ≤ (rtcTimeToDateTime 0).day ∧ (rtcTimeToDateTime 0).day ≤ 31 ∧
    0 ≤ (rtcTimeToDateTime 0).hours ∧ (rtcTimeToDateTime 0).hours ≤ 23 ∧
    0 ≤ (rtcTimeToDateTime 0).minutes ∧ (rtcTimeToDateTime 0).minutes ≤ 59 ∧
    0 ≤ (rtcTimeToDateTime 0).seconds ∧ (rtcTimeToDateTime 0).seconds ≤ 59 ∧
    0 ≤ (rtcTimeToDateTime 0).millis ∧ (rtcTimeToDateTime 0).millis ≤ 999 :=
  fieldsInRange_spec 0 (by norm_num) (by norm_num)
